import Mathlib

/-
  Verification of the expo-game-support 2D physics/collision engine.

  Shallow embedding over ℚ (the source uses JS f64; the claims under study are
  about exact algebraic behaviour, not floating-point rounding, so rationals
  are used as the idealised number type, matching the spec's f64-as-real view).

  Sources embedded:
  - src/src/math/Vector2D.ts            (Vector2D)
  - src/src/core/GameObject.ts          (GameObject, applyForce, applyImpulse)
  - src/physics/CollisionDetector.ts    (checkAABBCollision; unnamed part_003)
  - src/src/physics/PhysicsEngine.ts    (the simple engine: SimplePhysicsEngine)
  - src/physics/PhysicsEngine.ts        (the advanced engine: PhysicsEngine;
                                         unnamed part_004)

  Thrown JS errors are modelled with Option (none = the thrown Error).
  JS string object ids, compared with < / >=, are modelled as ℕ ids with
  the usual order (only the total order on ids is ever used by the source).
-/

/-- 2D vector value type, from src/src/math/Vector2D.ts. -/
structure Vector2D where
  x : ℚ
  y : ℚ
deriving DecidableEq, Repr

namespace Vector2D

/-- `add` from Vector2D.ts. -/
def add (a b : Vector2D) : Vector2D := ⟨a.x + b.x, a.y + b.y⟩

/-- `subtract` from Vector2D.ts. -/
def subtract (a b : Vector2D) : Vector2D := ⟨a.x - b.x, a.y - b.y⟩

/-- `multiply(scalar)` from Vector2D.ts. -/
def multiply (a : Vector2D) (s : ℚ) : Vector2D := ⟨a.x * s, a.y * s⟩

/-- `divide(scalar)` from Vector2D.ts: `if (scalar === 0) throw ...;
return new Vector2D(x/scalar, y/scalar)`. The thrown divide-by-zero Error is
modelled as `none`; the function is pure and returns a fresh vector, so the
receiver is never modified (value semantics). -/
def divide (a : Vector2D) (s : ℚ) : Option Vector2D :=
  if s = 0 then none else some ⟨a.x / s, a.y / s⟩

/-- `dot` from Vector2D.ts. -/
def dot (a b : Vector2D) : ℚ := a.x * b.x + a.y * b.y

/-- `magnitudeSquared` from Vector2D.ts. The engine compares
`velocity.magnitude() < threshold`; over ℚ the square root is not available,
so every such comparison is embedded as the equivalent
`magnitudeSquared < threshold^2` (both sides nonnegative). -/
def magnitudeSquared (a : Vector2D) : ℚ := a.x * a.x + a.y * a.y

/-- `Vector2D.zero()` from Vector2D.ts. -/
def zero : Vector2D := ⟨0, 0⟩

end Vector2D

/-- Physics body state, from src/types (PhysicsBody / PhysicsComponent) as
used by GameObject.ts and the two engines. Collision layers/masks are
`Option` because the source defaults them with `|| [CollisionLayer.Default]`
at each use site; the group is `Option` because the source tests it with JS
truthiness (`physics.collisionGroup && ...`). -/
structure PhysicsBody where
  mass : ℚ
  velocity : Vector2D
  acceleration : Vector2D := ⟨0, 0⟩
  force : Vector2D := ⟨0, 0⟩
  friction : ℚ := 0
  restitution : ℚ := 0
  isStatic : Bool
  isTrigger : Bool := false
  angularVelocity : ℚ := 0
  angularAcceleration : ℚ := 0
  isSleeping : Bool := false
  sleepTimer : ℕ := 0
  collisionLayers : Option (List ℕ) := none
  collisionMask : Option (List ℕ) := none
  collisionGroup : Option ℕ := none
deriving DecidableEq, Repr

/-- Game entity, from src/src/core/GameObject.ts. -/
structure GameObject where
  id : ℕ
  position : Vector2D
  size : Vector2D
  rotation : ℚ := 0
  physics : Option PhysicsBody
  active : Bool := true
deriving DecidableEq, Repr

/-- Object bounds record, as returned by `GameObject.getBounds()`. -/
structure Bounds where
  left : ℚ
  right : ℚ
  top : ℚ
  bottom : ℚ
deriving DecidableEq, Repr

namespace GameObject

/-- `getBounds()` from GameObject.ts: position ± size/2. -/
def getBounds (o : GameObject) : Bounds :=
  ⟨o.position.x - o.size.x / 2, o.position.x + o.size.x / 2,
   o.position.y - o.size.y / 2, o.position.y + o.size.y / 2⟩

/-- `applyForce` from GameObject.ts:
`if (!this.physics || this.physics.isStatic) return; force += f`. -/
def applyForce (o : GameObject) (f : Vector2D) : GameObject :=
  match o.physics with
  | none => o
  | some p =>
    if p.isStatic then o
    else { o with physics := some { p with force := p.force.add f } }

/-- `applyImpulse` from GameObject.ts:
`if (!this.physics || this.physics.isStatic || this.physics.mass <= 0) return;
velocity += impulse / mass`. -/
def applyImpulse (o : GameObject) (impulse : Vector2D) : GameObject :=
  match o.physics with
  | none => o
  | some p =>
    if p.isStatic ∨ p.mass ≤ 0 then o
    else { o with physics := some { p with velocity :=
      ⟨p.velocity.x + impulse.x / p.mass, p.velocity.y + impulse.y / p.mass⟩ } }

/-- An object counts as a static body when it has a physics body with
`isStatic = true`. -/
def isStaticBody (o : GameObject) : Bool :=
  match o.physics with
  | some p => p.isStatic
  | none => false

end GameObject

/-- `isStaticBody` holds exactly when a physics body is present and static. -/
theorem GameObject.isStaticBody_iff (o : GameObject) :
    o.isStaticBody = true ↔ ∃ p, o.physics = some p ∧ p.isStatic = true := by
  unfold GameObject.isStaticBody
  cases hp : o.physics with
  | none => simp
  | some p => simp

/-- `applyForce` leaves an object with a static body completely unchanged. -/
theorem GameObject.applyForce_of_static (o : GameObject) (p : PhysicsBody)
    (f : Vector2D) (hp : o.physics = some p) (hs : p.isStatic = true) :
    o.applyForce f = o := by
  unfold GameObject.applyForce
  rw [hp]
  simp [hs]

/-- `applyForce` leaves an object without a physics body unchanged. -/
theorem GameObject.applyForce_of_none (o : GameObject) (f : Vector2D)
    (h : o.physics = none) : o.applyForce f = o := by
  unfold GameObject.applyForce
  rw [h]

/-- `applyImpulse` leaves an object with a static body completely unchanged. -/
theorem GameObject.applyImpulse_of_static (o : GameObject) (p : PhysicsBody)
    (f : Vector2D) (hp : o.physics = some p) (hs : p.isStatic = true) :
    o.applyImpulse f = o := by
  unfold GameObject.applyImpulse
  rw [hp]
  simp [hs]

/-- `applyImpulse` leaves an object without a physics body unchanged. -/
theorem GameObject.applyImpulse_of_none (o : GameObject) (f : Vector2D)
    (h : o.physics = none) : o.applyImpulse f = o := by
  unfold GameObject.applyImpulse
  rw [h]

/-- Any object a static body can present: `applyForce` and `applyImpulse`
both fix it (wrapper on `isStaticBody`). -/
theorem GameObject.static_fixed_by_pushes (o : GameObject) (f : Vector2D)
    (h : o.isStaticBody = true) : o.applyForce f = o ∧ o.applyImpulse f = o := by
  rcases (GameObject.isStaticBody_iff o).1 h with ⟨p, hp, hs⟩
  exact ⟨GameObject.applyForce_of_static o p f hp hs,
         GameObject.applyImpulse_of_static o p f hp hs⟩

/-- `applyForce` never changes position, velocity, sleep flag or sleep timer:
it only accumulates into the force accumulator. -/
theorem GameObject.applyForce_fields (o : GameObject) (f : Vector2D) :
    (o.applyForce f).position = o.position ∧
    (o.applyForce f).physics.map PhysicsBody.velocity =
      o.physics.map PhysicsBody.velocity ∧
    (o.applyForce f).physics.map PhysicsBody.isSleeping =
      o.physics.map PhysicsBody.isSleeping ∧
    (o.applyForce f).physics.map PhysicsBody.sleepTimer =
      o.physics.map PhysicsBody.sleepTimer := by
  cases hp : o.physics with
  | none => simp [GameObject.applyForce, hp]
  | some p =>
    by_cases h : p.isStatic <;> simp [GameObject.applyForce, hp, h]

/-- A dynamic (non-static) body of unit data used in concrete witnesses. -/
def mkBody (mass : ℚ) (vel : Vector2D) (isStat : Bool) : PhysicsBody :=
  { mass := mass, velocity := vel, isStatic := isStat }

/-- A concrete game object used in witnesses. -/
def mkObj (id : ℕ) (pos size : Vector2D) (b : PhysicsBody) : GameObject :=
  { id := id, position := pos, size := size, physics := some b }

/-- Claim C9: `Vector2D.divide(scalar)` fails with the divide-by-zero error
exactly when the scalar is 0, and for every non-zero scalar it returns the
componentwise quotient (a fresh vector; the receiver is not modified, which in
this functional embedding is by construction). -/
theorem claim9_divide_by_zero (v : Vector2D) (s : ℚ) :
    (v.divide s = none ↔ s = 0) ∧
    (s ≠ 0 → v.divide s = some ⟨v.x / s, v.y / s⟩) := by
  constructor
  · constructor
    · intro h
      by_contra hs
      simp [Vector2D.divide, hs] at h
    · intro h; simp [Vector2D.divide, h]
  · intro h; simp [Vector2D.divide, h]

/-- Witness for C9 at the spec's concrete scenario: `divide(Vector2D(4,4), 0)`
raises, and `divide(Vector2D(4,4), 2)` returns `(2,2)`. -/
theorem claim9_witness :
    (Vector2D.mk 4 4).divide 0 = none ∧
    (Vector2D.mk 4 4).divide 2 = some ⟨2, 2⟩ := by
  refine ⟨(claim9_divide_by_zero ⟨4, 4⟩ 0).1.2 rfl, ?_⟩
  rw [(claim9_divide_by_zero ⟨4, 4⟩ 2).2 (by norm_num)]
  norm_num

/-- Claim C10: on a GameObject whose body is static or has mass ≤ 0,
`applyImpulse` is a no-op (so the division by mass is never performed with
mass 0: whenever the division is reached the mass is strictly positive);
likewise `applyForce` on a static body leaves the force accumulator (and the
whole object) unchanged. -/
theorem claim10_impulse_guard (o : GameObject) (p : PhysicsBody)
    (v f : Vector2D) (hp : o.physics = some p) :
    (p.isStatic = true ∨ p.mass ≤ 0 → o.applyImpulse v = o) ∧
    (p.isStatic = false → 0 < p.mass →
      o.applyImpulse v = { o with physics := some { p with velocity :=
        ⟨p.velocity.x + v.x / p.mass, p.velocity.y + v.y / p.mass⟩ } }) ∧
    (p.isStatic = true → o.applyForce f = o) := by
  refine ⟨?_, ?_, ?_⟩
  · intro h
    unfold GameObject.applyImpulse
    rw [hp]
    rcases h with h | h
    · simp [h]
    · simp [h]
  · intro hs hm
    unfold GameObject.applyImpulse
    rw [hp]
    simp [hs, not_le.mpr hm]
  · intro hs
    exact GameObject.applyForce_of_static o p f hp hs

/-- Witness for C10: a concrete static body of mass 1 ignores impulses and
forces, and a concrete dynamic body of mass 2 gains `impulse/mass`. -/
theorem claim10_witness :
    (mkObj 0 ⟨0, 0⟩ ⟨1, 1⟩ (mkBody 1 ⟨0, 0⟩ true)).applyImpulse ⟨3, 4⟩ =
      mkObj 0 ⟨0, 0⟩ ⟨1, 1⟩ (mkBody 1 ⟨0, 0⟩ true) ∧
    (mkObj 0 ⟨0, 0⟩ ⟨1, 1⟩ (mkBody 1 ⟨0, 0⟩ true)).applyForce ⟨3, 4⟩ =
      mkObj 0 ⟨0, 0⟩ ⟨1, 1⟩ (mkBody 1 ⟨0, 0⟩ true) ∧
    (mkObj 0 ⟨0, 0⟩ ⟨1, 1⟩ (mkBody 2 ⟨0, 0⟩ false)).applyImpulse ⟨3, 4⟩ =
      mkObj 0 ⟨0, 0⟩ ⟨1, 1⟩ (mkBody 2 ⟨3 / 2, 2⟩ false) := by
  have h1 := claim10_impulse_guard (mkObj 0 ⟨0, 0⟩ ⟨1, 1⟩ (mkBody 1 ⟨0, 0⟩ true))
    (mkBody 1 ⟨0, 0⟩ true) ⟨3, 4⟩ ⟨3, 4⟩ rfl
  have h2 := claim10_impulse_guard (mkObj 0 ⟨0, 0⟩ ⟨1, 1⟩ (mkBody 2 ⟨0, 0⟩ false))
    (mkBody 2 ⟨0, 0⟩ false) ⟨3, 4⟩ ⟨3, 4⟩ rfl
  refine ⟨h1.1 (Or.inl rfl), h1.2.2 rfl, ?_⟩
  rw [h2.2.1 rfl (by norm_num [mkBody])]
  simp only [mkObj, mkBody]
  norm_num

/-- Collision manifold, from src/types (CollisionEvent). -/
structure CollisionEvent where
  objectA : ℕ
  objectB : ℕ
  point : Vector2D
  normal : Vector2D
  penetration : ℚ
deriving DecidableEq, Repr

namespace CollisionDetector

/-- X-axis overlap of the two bounding boxes, from CollisionDetector.ts:
`Math.min(boundsA.right, boundsB.right) - Math.max(boundsA.left, boundsB.left)`. -/
def overlapX (a b : GameObject) : ℚ :=
  min a.getBounds.right b.getBounds.right - max a.getBounds.left b.getBounds.left

/-- Y-axis overlap of the two bounding boxes, from CollisionDetector.ts. -/
def overlapY (a b : GameObject) : ℚ :=
  min a.getBounds.bottom b.getBounds.bottom - max a.getBounds.top b.getBounds.top

/-- `checkAABBCollision` from CollisionDetector.ts: returns null when
`overlapX <= 0 || overlapY <= 0`; otherwise the axis of strictly smaller X
overlap is horizontal (ties go vertical, matching `overlapX < overlapY`),
penetration is that overlap, the normal's sign compares the two centers, and
the point is the centroid of the overlap rectangle. -/
def checkAABBCollision (a b : GameObject) : Option CollisionEvent :=
  if overlapX a b ≤ 0 ∨ overlapY a b ≤ 0 then none
  else
    let pn : ℚ × Vector2D :=
      if overlapX a b < overlapY a b then
        (overlapX a b,
          if a.position.x < b.position.x then ⟨-1, 0⟩ else ⟨1, 0⟩)
      else
        (overlapY a b,
          if a.position.y < b.position.y then ⟨0, -1⟩ else ⟨0, 1⟩)
    some
      { objectA := a.id
        objectB := b.id
        point := ⟨max a.getBounds.left b.getBounds.left + overlapX a b / 2,
                  max a.getBounds.top b.getBounds.top + overlapY a b / 2⟩
        normal := pn.2
        penetration := pn.1 }

end CollisionDetector

/-- Dynamic 10×10 box centered at the origin (id 0), used for C3. -/
def detA : GameObject := mkObj 0 ⟨0, 0⟩ ⟨10, 10⟩ (mkBody 1 ⟨0, 0⟩ false)

/-- Dynamic 10×10 box centered at (5,0) (id 1), used for C3. -/
def detB : GameObject := mkObj 1 ⟨5, 0⟩ ⟨10, 10⟩ (mkBody 1 ⟨0, 0⟩ false)

/-- Counterexample to claim C3's direction clause: boxes A at (0,0) and B at
(5,0), both 10×10, collide with penetration 5 on the X axis, and the returned
normal is (-1,0); the vector from A's center to B's center is (5,0), whose dot
product with the normal is negative — the normal points from B to A, not from
A to B as claimed. -/
theorem claim3_counterexample :
    CollisionDetector.checkAABBCollision detA detB =
      some ⟨0, 1, ⟨5 / 2, 0⟩, ⟨-1, 0⟩, 5⟩ ∧
    detB.position.subtract detA.position = ⟨5, 0⟩ ∧
    (Vector2D.mk (-1) 0).dot (detB.position.subtract detA.position) < 0 := by
  refine ⟨?_, ?_, ?_⟩
  · norm_num [CollisionDetector.checkAABBCollision, CollisionDetector.overlapX,
      CollisionDetector.overlapY, detA, detB, mkObj, mkBody, GameObject.getBounds]
  · norm_num [detA, detB, mkObj, mkBody, Vector2D.subtract]
  · norm_num [detA, detB, mkObj, mkBody, Vector2D.subtract, Vector2D.dot]

/-- Claim C3 as amended: `checkAABBCollision` returns no collision exactly
when some axis has no positive overlap; otherwise penetration is the smaller
overlap, the normal is the unit axis vector chosen by comparing centers on the
minimum-overlap axis, and the normal points from B to A (its dot product with
the center-to-center vector from B to A is nonnegative). -/
theorem claim3_aabb_characterization (a b : GameObject) :
    (CollisionDetector.checkAABBCollision a b = none ↔
      CollisionDetector.overlapX a b ≤ 0 ∨ CollisionDetector.overlapY a b ≤ 0) ∧
    (0 < CollisionDetector.overlapX a b → 0 < CollisionDetector.overlapY a b →
      ∃ ev, CollisionDetector.checkAABBCollision a b = some ev ∧
        ev.penetration =
          min (CollisionDetector.overlapX a b) (CollisionDetector.overlapY a b) ∧
        ev.normal =
          (if CollisionDetector.overlapX a b < CollisionDetector.overlapY a b then
            (if a.position.x < b.position.x then ⟨-1, 0⟩ else ⟨1, 0⟩)
          else
            (if a.position.y < b.position.y then ⟨0, -1⟩ else (⟨0, 1⟩ : Vector2D))) ∧
        ev.normal.magnitudeSquared = 1 ∧
        0 ≤ ev.normal.dot (a.position.subtract b.position)) := by
  constructor
  · unfold CollisionDetector.checkAABBCollision
    by_cases h : CollisionDetector.overlapX a b ≤ 0 ∨ CollisionDetector.overlapY a b ≤ 0
    · simp [h]
    · simp [h]
  · intro hx hy
    have hno : ¬(CollisionDetector.overlapX a b ≤ 0 ∨
        CollisionDetector.overlapY a b ≤ 0) := by
      push_neg
      exact ⟨hx, hy⟩
    unfold CollisionDetector.checkAABBCollision
    rw [if_neg hno]
    refine ⟨_, rfl, ?_, ?_, ?_⟩
    · by_cases hlt : CollisionDetector.overlapX a b < CollisionDetector.overlapY a b
      · simp [hlt, min_eq_left (le_of_lt hlt)]
      · simp [hlt, min_eq_right (le_of_not_lt hlt)]
    · by_cases hlt : CollisionDetector.overlapX a b < CollisionDetector.overlapY a b <;>
        by_cases hc : a.position.x < b.position.x <;>
        by_cases hcy : a.position.y < b.position.y <;>
        simp [hlt, hc, hcy]
    · by_cases hlt : CollisionDetector.overlapX a b < CollisionDetector.overlapY a b
      · by_cases hc : a.position.x < b.position.x
        · simp [hlt, hc, Vector2D.dot, Vector2D.subtract, Vector2D.magnitudeSquared]
          linarith
        · simp [hlt, hc, Vector2D.dot, Vector2D.subtract, Vector2D.magnitudeSquared]
          push_neg at hc
          linarith
      · by_cases hc : a.position.y < b.position.y
        · simp [hlt, hc, Vector2D.dot, Vector2D.subtract, Vector2D.magnitudeSquared]
          linarith
        · simp [hlt, hc, Vector2D.dot, Vector2D.subtract, Vector2D.magnitudeSquared]
          push_neg at hc
          linarith

/-- Witness for C3's amended theorem at the concrete overlapping pair. -/
theorem claim3_witness :
    0 < CollisionDetector.overlapX detA detB ∧
    0 < CollisionDetector.overlapY detA detB ∧
    (∃ ev, CollisionDetector.checkAABBCollision detA detB = some ev ∧
      ev.penetration =
        min (CollisionDetector.overlapX detA detB)
          (CollisionDetector.overlapY detA detB) ∧
      ev.normal =
        (if CollisionDetector.overlapX detA detB <
            CollisionDetector.overlapY detA detB then
          (if detA.position.x < detB.position.x then ⟨-1, 0⟩ else ⟨1, 0⟩)
        else
          (if detA.position.y < detB.position.y then ⟨0, -1⟩
           else (⟨0, 1⟩ : Vector2D))) ∧
      ev.normal.magnitudeSquared = 1 ∧
      0 ≤ ev.normal.dot (detA.position.subtract detB.position)) := by
  have hx : 0 < CollisionDetector.overlapX detA detB := by
    norm_num [CollisionDetector.overlapX, detA, detB, mkObj, mkBody,
      GameObject.getBounds]
  have hy : 0 < CollisionDetector.overlapY detA detB := by
    norm_num [CollisionDetector.overlapY, detA, detB, mkObj, mkBody,
      GameObject.getBounds]
  exact ⟨hx, hy, (claim3_aabb_characterization detA detB).2 hx hy⟩

/-- Truncation toward zero, as used by the JS `%` operator's quotient. -/
def ratTrunc (q : ℚ) : ℤ := if 0 ≤ q then ⌊q⌋ else ⌈q⌉

/-- The JavaScript remainder operator `x % m`: `x - m * trunc(x / m)`.
Its result carries the sign of the dividend `x` (or is zero). -/
def jsRem (x m : ℚ) : ℚ := x - m * (ratTrunc (x / m) : ℚ)

/-- Angular part of `PhysicsEngine.integrateObject` (PhysicsEngine.ts, the
advanced engine): `angularVelocity += angularAcceleration * dt;
rotation += angularVelocity * dt; rotation = rotation % (2 * Math.PI)`.
The source modulus is `2 * Math.PI`; since π is irrational it cannot be a
rational constant, so the modulus is a parameter `m` here, standing for 2π.
Every statement below holds (or fails) uniformly in the positive modulus. -/
def integrateRotation (m rot omega alpha dt : ℚ) : ℚ :=
  let w := omega + alpha * dt
  jsRem (rot + w * dt) m

/-- Bounds of the JS remainder for a positive modulus: the result is in
`(-m, m)`, and it is nonnegative whenever the dividend is nonnegative. -/
theorem jsRem_bounds (x m : ℚ) (hm : 0 < m) :
    -m < jsRem x m ∧ jsRem x m < m ∧ (0 ≤ x → 0 ≤ jsRem x m) := by
  unfold jsRem ratTrunc
  have hx : x = x / m * m := by field_simp
  by_cases hq : 0 ≤ x / m
  · rw [if_pos hq]
    have h1 : ((⌊x / m⌋ : ℤ) : ℚ) ≤ x / m := Int.floor_le _
    have h2 : x / m < (⌊x / m⌋ : ℤ) + 1 := Int.lt_floor_add_one _
    have h1m : m * ((⌊x / m⌋ : ℤ) : ℚ) ≤ m * (x / m) :=
      mul_le_mul_of_nonneg_left h1 hm.le
    have h2m : m * (x / m) < m * (((⌊x / m⌋ : ℤ) : ℚ) + 1) :=
      (mul_lt_mul_left hm).mpr h2
    constructor
    · nlinarith
    constructor
    · nlinarith
    · intro _
      nlinarith
  · push_neg at hq
    rw [if_neg (not_le.mpr hq)]
    have h1 : x / m ≤ ((⌈x / m⌉ : ℤ) : ℚ) := Int.le_ceil _
    have h2 : ((⌈x / m⌉ : ℤ) : ℚ) < x / m + 1 := Int.ceil_lt_add_one _
    have h1m : m * (x / m) ≤ m * ((⌈x / m⌉ : ℤ) : ℚ) :=
      mul_le_mul_of_nonneg_left h1 hm.le
    have h2m : m * ((⌈x / m⌉ : ℤ) : ℚ) < m * (x / m + 1) :=
      (mul_lt_mul_left hm).mpr h2
    constructor
    · nlinarith
    constructor
    · nlinarith
    · intro h0
      exact absurd (div_nonneg h0 hm.le) (not_le.mpr hq)

/-- Counterexample to claim C8: with a positive modulus (standing for 2π), an
initial rotation of −1 and zero angular velocity, the stored rotation after
integration is −1, which does not lie in `[0, modulus)`: the JS `%` operator
keeps the dividend's sign, so negative rotations are not normalized into
`[0, 2π)`. -/
theorem claim8_counterexample :
    0 < (157 / 25 : ℚ) ∧
    integrateRotation (157 / 25) (-1) 0 0 (1 / 60) = -1 ∧
    ¬ (0 ≤ (-1 : ℚ)) := by
  refine ⟨by norm_num, ?_, by norm_num⟩
  norm_num [integrateRotation, jsRem, ratTrunc]

/-- Claim C8 as amended: after each sub-step's integration the stored
rotation `jsRem (rotation + ω·dt) (2π)` lies in the open interval
`(-2π, 2π)`; it lies in `[0, 2π)` exactly as claimed whenever the
un-normalized updated rotation is nonnegative, but keeps a negative value
when the updated rotation is negative. Stated for every positive modulus `m`
standing for the irrational constant 2π. -/
theorem claim8_rotation_normalized (m rot omega alpha dt : ℚ) (hm : 0 < m) :
    -m < integrateRotation m rot omega alpha dt ∧
    integrateRotation m rot omega alpha dt < m ∧
    (0 ≤ rot + (omega + alpha * dt) * dt →
      0 ≤ integrateRotation m rot omega alpha dt) := by
  unfold integrateRotation
  exact jsRem_bounds _ m hm

/-- Witness for C8's amended theorem at a concrete positive modulus and a
negative rotation. -/
theorem claim8_witness :
    0 < (157 / 25 : ℚ) ∧
    -(157 / 25 : ℚ) < integrateRotation (157 / 25) (-1) 0 0 (1 / 60) ∧
    integrateRotation (157 / 25) (-1) 0 0 (1 / 60) < 157 / 25 := by
  have h := claim8_rotation_normalized (157 / 25) (-1) 0 0 (1 / 60) (by norm_num)
  exact ⟨by norm_num, h.1, h.2.1⟩

namespace PhysicsEngine

/-- `getInverseMass` from PhysicsEngine.ts (advanced engine):
static bodies have inverse mass 0, others `1 / mass`. -/
def getInverseMass (p : PhysicsBody) : ℚ :=
  if p.isStatic then 0 else 1 / p.mass

/-- `applyImpulseToObject` from PhysicsEngine.ts (advanced engine): adds the
impulse vector directly to the velocity; no-op on missing physics or static
bodies. -/
def applyImpulseToObject (o : GameObject) (impulse : Vector2D) : GameObject :=
  match o.physics with
  | none => o
  | some p =>
    if p.isStatic then o
    else { o with physics := some { p with velocity := p.velocity.add impulse } }

/-- `resolveVelocities` from PhysicsEngine.ts (advanced engine). The source
dereferences `objA.physics!` / `objB.physics!` (non-null asserted; the engine
only calls this for objects registered with physics), embedded here as a
match that is a no-op when a body is missing. -/
def resolveVelocities (objA objB : GameObject) (normal : Vector2D) :
    GameObject × GameObject :=
  match objA.physics, objB.physics with
  | some physicsA, some physicsB =>
    let relativeVelocity := physicsB.velocity.subtract physicsA.velocity
    let separatingVelocity := relativeVelocity.dot normal
    if 0 < separatingVelocity then (objA, objB)
    else
      let restitution := min physicsA.restitution physicsB.restitution
      let newSeparatingVelocity := -separatingVelocity * restitution
      let deltaVelocity := newSeparatingVelocity - separatingVelocity
      let totalInverseMass := getInverseMass physicsA + getInverseMass physicsB
      if totalInverseMass ≤ 0 then (objA, objB)
      else
        let impulseMagnitude := deltaVelocity / totalInverseMass
        let impulse := normal.multiply impulseMagnitude
        let a1 := if physicsA.isStatic then objA
          else applyImpulseToObject objA
            (impulse.multiply (-(getInverseMass physicsA)))
        let b1 := if physicsB.isStatic then objB
          else applyImpulseToObject objB
            (impulse.multiply (getInverseMass physicsB))
        (a1, b1)
  | _, _ => (objA, objB)

/-- `snapToSurface` from PhysicsEngine.ts (advanced engine): for near-vertical
normals, overwrite the non-static body's y coordinate with a face-aligned
value computed from the static body's bounds. -/
def snapToSurface (objA objB : GameObject) (normal : Vector2D) :
    GameObject × GameObject :=
  match objA.physics, objB.physics with
  | some physicsA, some physicsB =>
    if physicsA.isStatic ∧ ¬ physicsB.isStatic then
      let boundsA := objA.getBounds
      let halfHeightB := objB.size.y / 2
      if normal.y < -(7 / 10) then
        (objA, { objB with position :=
          ⟨objB.position.x, boundsA.top - halfHeightB⟩ })
      else if (7 / 10) < normal.y then
        (objA, { objB with position :=
          ⟨objB.position.x, boundsA.bottom + halfHeightB⟩ })
      else (objA, objB)
    else if ¬ physicsA.isStatic ∧ physicsB.isStatic then
      let boundsB := objB.getBounds
      let halfHeightA := objA.size.y / 2
      if (7 / 10) < normal.y then
        ({ objA with position :=
          ⟨objA.position.x, boundsB.top - halfHeightA⟩ }, objB)
      else if normal.y < -(7 / 10) then
        ({ objA with position :=
          ⟨objA.position.x, boundsB.bottom + halfHeightA⟩ }, objB)
      else (objA, objB)
    else (objA, objB)
  | _, _ => (objA, objB)

/-- `separateObjects` from PhysicsEngine.ts (advanced engine): both static ⇒
no-op; one static ⇒ the other takes the full penetration; otherwise split
inversely proportional to mass; positions are then pushed along ±normal, and
for near-vertical normals `snapToSurface` runs on the pushed objects. -/
def separateObjects (objA objB : GameObject) (normal : Vector2D)
    (penetration : ℚ) : GameObject × GameObject :=
  match objA.physics, objB.physics with
  | some physicsA, some physicsB =>
    if physicsA.isStatic ∧ physicsB.isStatic then (objA, objB)
    else
      let sep : ℚ × ℚ :=
        if physicsA.isStatic then (0, penetration)
        else if physicsB.isStatic then (penetration, 0)
        else
          let totalInverseMass := 1 / physicsA.mass + 1 / physicsB.mass
          (penetration * (1 / physicsA.mass) / totalInverseMass,
           penetration * (1 / physicsB.mass) / totalInverseMass)
      let a1 := if 0 < sep.1 then
          { objA with position := objA.position.add (normal.multiply sep.1) }
        else objA
      let b1 := if 0 < sep.2 then
          { objB with position := objB.position.add (normal.multiply (-sep.2)) }
        else objB
      if (7 / 10) < |normal.y| then snapToSurface a1 b1 normal else (a1, b1)
  | _, _ => (objA, objB)

end PhysicsEngine

/-- The impulse magnitude of the claim's formula:
`j = -(1 + min(restitutionA, restitutionB)) · velocityAlongNormal / (invMassA + invMassB)`
with `velocityAlongNormal = (velB - velA)·normal` and `invMass = 1/mass`. -/
def impulseJ (pa pb : PhysicsBody) (n : Vector2D) : ℚ :=
  -(1 + min pa.restitution pb.restitution) * ((pb.velocity.subtract pa.velocity).dot n) / (1 / pa.mass + 1 / pb.mass)

/-- Claim C1: for a colliding pair of non-static bodies with positive masses,
`resolveVelocities` skips the pair when the relative velocity along the normal
is positive (separating), and otherwise applies the impulse of magnitude
`j = -(1+restitution)·velocityAlongNormal / (invMassA + invMassB)` with
restitution `min(a.restitution, b.restitution)`, changing A's velocity by
`-j·invMassA·normal` and B's velocity by `+j·invMassB·normal`. -/
theorem claim1_velocity_resolution (a b : GameObject) (pa pb : PhysicsBody)
    (n : Vector2D) (ha : a.physics = some pa) (hb : b.physics = some pb)
    (hsa : pa.isStatic = false) (hsb : pb.isStatic = false)
    (hma : 0 < pa.mass) (hmb : 0 < pb.mass) :
    (0 < (pb.velocity.subtract pa.velocity).dot n →
      PhysicsEngine.resolveVelocities a b n = (a, b)) ∧
    ((pb.velocity.subtract pa.velocity).dot n ≤ 0 →
      (PhysicsEngine.resolveVelocities a b n).1 = { a with physics := some { pa with velocity := pa.velocity.add ((n.multiply (impulseJ pa pb n)).multiply (-(1 / pa.mass))) } } ∧
      (PhysicsEngine.resolveVelocities a b n).2 = { b with physics := some { pb with velocity := pb.velocity.add ((n.multiply (impulseJ pa pb n)).multiply (1 / pb.mass)) } }) := by
  have hia : PhysicsEngine.getInverseMass pa = 1 / pa.mass := by
    simp [PhysicsEngine.getInverseMass, hsa]
  have hib : PhysicsEngine.getInverseMass pb = 1 / pb.mass := by
    simp [PhysicsEngine.getInverseMass, hsb]
  have htotal : 0 < 1 / pa.mass + 1 / pb.mass := by positivity
  constructor
  · intro hv
    unfold PhysicsEngine.resolveVelocities
    rw [ha, hb]
    simp only [if_pos hv]
  · intro hv
    unfold PhysicsEngine.resolveVelocities
    rw [ha, hb]
    simp only [if_neg (not_lt.mpr hv), hia, hib, hsa, hsb, Bool.false_eq_true,
      if_false, if_neg (not_le.mpr htotal)]
    unfold PhysicsEngine.applyImpulseToObject
    rw [ha, hb]
    simp only [hsa, hsb, Bool.false_eq_true, if_false]
    constructor
    · simp only [impulseJ, Vector2D.add, Vector2D.multiply, Vector2D.subtract,
        Vector2D.dot, GameObject.mk.injEq, Option.some.injEq,
        PhysicsBody.mk.injEq, Vector2D.mk.injEq, and_true, true_and,
        eq_self_iff_true]
      constructor <;> ring
    · simp only [impulseJ, Vector2D.add, Vector2D.multiply, Vector2D.subtract,
        Vector2D.dot, GameObject.mk.injEq, Option.some.injEq,
        PhysicsBody.mk.injEq, Vector2D.mk.injEq, and_true, true_and,
        eq_self_iff_true]
      constructor <;> ring

/-- Witness for C1 at a concrete pair: A (mass 1, velocity (-1,0)) and
B (mass 1, velocity (1,0)) with restitution 0 and collision normal (-1,0):
the relative velocity along the normal is -2 ≤ 0, the impulse has magnitude
-1·(-2)/(1+1) = 1, and both bodies end with velocity (0,0). -/
theorem claim1_witness :
    ((mkObj 0 ⟨0, 0⟩ ⟨2, 2⟩ (mkBody 1 ⟨-1, 0⟩ false)).physics.map
      (fun p => p.velocity) = some ⟨-1, 0⟩) ∧
    ((PhysicsEngine.resolveVelocities
        (mkObj 0 ⟨0, 0⟩ ⟨2, 2⟩ (mkBody 1 ⟨-1, 0⟩ false))
        (mkObj 1 ⟨1, 0⟩ ⟨2, 2⟩ (mkBody 1 ⟨1, 0⟩ false)) ⟨-1, 0⟩).1.physics.map
      (fun p => p.velocity) = some ⟨0, 0⟩) ∧
    ((PhysicsEngine.resolveVelocities
        (mkObj 0 ⟨0, 0⟩ ⟨2, 2⟩ (mkBody 1 ⟨-1, 0⟩ false))
        (mkObj 1 ⟨1, 0⟩ ⟨2, 2⟩ (mkBody 1 ⟨1, 0⟩ false)) ⟨-1, 0⟩).2.physics.map
      (fun p => p.velocity) = some ⟨0, 0⟩) := by
  have h := claim1_velocity_resolution
    (mkObj 0 ⟨0, 0⟩ ⟨2, 2⟩ (mkBody 1 ⟨-1, 0⟩ false))
    (mkObj 1 ⟨1, 0⟩ ⟨2, 2⟩ (mkBody 1 ⟨1, 0⟩ false))
    (mkBody 1 ⟨-1, 0⟩ false) (mkBody 1 ⟨1, 0⟩ false) ⟨-1, 0⟩
    rfl rfl rfl rfl (by norm_num [mkBody]) (by norm_num [mkBody])
  have hv : ((mkBody 1 ⟨1, 0⟩ false).velocity.subtract
      (mkBody 1 ⟨-1, 0⟩ false).velocity).dot ⟨-1, 0⟩ ≤ 0 := by
    norm_num [mkBody, Vector2D.subtract, Vector2D.dot]
  obtain ⟨h1, h2⟩ := h.2 hv
  rw [h1, h2]
  refine ⟨rfl, ?_, ?_⟩ <;>
    · simp only [mkObj, mkBody, impulseJ, Option.map, Vector2D.add,
        Vector2D.multiply, Vector2D.subtract, Vector2D.dot]
      norm_num

/-- Falling dynamic 10×10 body at (0,96), used for C2. -/
def dynA2 : GameObject := mkObj 0 ⟨0, 96⟩ ⟨10, 10⟩ (mkBody 1 ⟨0, 0⟩ false)

/-- Static 10×10 ground body at (0,105), used for C2. -/
def statB2 : GameObject := mkObj 1 ⟨0, 105⟩ ⟨10, 10⟩ (mkBody 1 ⟨0, 0⟩ true)

/-- Claim C2, evaluated at the failing input: a dynamic body resting 1 unit
into a static ground (normal (0,-1), penetration 1). The static body absorbs
none of the correction (as claimed), and the separation step moves the
dynamic body to y = 95 = 96 + (-1)·1 (full penetration, as claimed) — but
`separateObjects` then calls `snapToSurface` (|normal.y| > 0.7), which
overwrites the dynamic body's y with `ground.bounds.bottom + halfHeight =
115`, the opposite side of the ground. The final position (0,115) is not the
claimed `position + normal·penetration = (0,95)`. -/
theorem claim2_snap_divergence :
    CollisionDetector.checkAABBCollision dynA2 statB2 =
      some ⟨0, 1, ⟨0, 201 / 2⟩, ⟨0, -1⟩, 1⟩ ∧
    (PhysicsEngine.separateObjects dynA2 statB2 ⟨0, -1⟩ 1).2 = statB2 ∧
    (PhysicsEngine.separateObjects dynA2 statB2 ⟨0, -1⟩ 1).1.position =
      ⟨0, 115⟩ ∧
    dynA2.position.add ((Vector2D.mk 0 (-1)).multiply 1) = ⟨0, 95⟩ ∧
    (Vector2D.mk 0 115) ≠ ⟨0, 95⟩ := by
  refine ⟨?_, ?_, ?_, ?_, ?_⟩
  · norm_num [CollisionDetector.checkAABBCollision, CollisionDetector.overlapX,
      CollisionDetector.overlapY, dynA2, statB2, mkObj, mkBody,
      GameObject.getBounds]
  · norm_num [PhysicsEngine.separateObjects, PhysicsEngine.snapToSurface,
      dynA2, statB2, mkObj, mkBody, GameObject.getBounds, Vector2D.add,
      Vector2D.multiply]
  · norm_num [PhysicsEngine.separateObjects, PhysicsEngine.snapToSurface,
      dynA2, statB2, mkObj, mkBody, GameObject.getBounds, Vector2D.add,
      Vector2D.multiply]
  · norm_num [dynA2, mkObj, Vector2D.add, Vector2D.multiply]
  · norm_num

/-- The part of claim C2 the code does satisfy: for two non-static bodies
with positive masses and positive penetration, `separateObjects` splits the
penetration inversely proportionally to mass — A moves by
`p·(1/mA)/((1/mA)+(1/mB))` along the normal and B by the complementary share
against the normal (and `snapToSurface` never modifies a pair of non-static
bodies). -/
theorem separateObjects_dynamic_split (a b : GameObject) (pa pb : PhysicsBody)
    (n : Vector2D) (p : ℚ)
    (ha : a.physics = some pa) (hb : b.physics = some pb)
    (hsa : pa.isStatic = false) (hsb : pb.isStatic = false)
    (hma : 0 < pa.mass) (hmb : 0 < pb.mass) (hp : 0 < p) :
    (PhysicsEngine.separateObjects a b n p).1.position =
      a.position.add (n.multiply (p * (1 / pa.mass) / (1 / pa.mass + 1 / pb.mass))) ∧
    (PhysicsEngine.separateObjects a b n p).2.position =
      b.position.add (n.multiply (-(p * (1 / pb.mass) / (1 / pa.mass + 1 / pb.mass)))) := by
  have htotal : 0 < 1 / pa.mass + 1 / pb.mass := by positivity
  have hsepA : 0 < p * (1 / pa.mass) / (1 / pa.mass + 1 / pb.mass) := by positivity
  have hsepB : 0 < p * (1 / pb.mass) / (1 / pa.mass + 1 / pb.mass) := by positivity
  unfold PhysicsEngine.separateObjects
  rw [ha, hb]
  simp only [hsa, hsb, Bool.false_eq_true, false_and, and_false, if_false,
    if_pos hsepA, if_pos hsepB]
  by_cases habs : (7 / 10 : ℚ) < |n.y|
  · rw [if_pos habs]
    unfold PhysicsEngine.snapToSurface
    simp [ha, hb, hsa, hsb]
  · rw [if_neg habs]
    exact ⟨rfl, rfl⟩

/-- Engine stepping configuration, from the `PhysicsConfig` fields used by
`PhysicsEngine.update` (advanced engine). -/
structure PhysicsConfig where
  maxSubsteps : ℕ
  maxDeltaTime : ℚ
  targetTimeStep : ℚ
deriving DecidableEq, Repr

namespace PhysicsEngine

/-- `update(deltaTime)` from PhysicsEngine.ts (advanced engine), stated over
an abstract simulation state `S` with `stepFn stepTime` standing for one
`simulateStep(stepTime)`: return unchanged when paused; clamp `deltaTime` to
`maxDeltaTime`; return unchanged when the clamped value is ≤ 0; run
`min(ceil(clamped / targetTimeStep), maxSubsteps)` sub-steps of size
`clamped / substeps`. (The post-loop spatial-hash / sleep / bounds phases and
performance metrics are not part of this claim; they are modelled separately.) -/
def update {S : Type} (stepFn : ℚ → S → S) (cfg : PhysicsConfig)
    (paused : Bool) (dt : ℚ) (s : S) : S :=
  if paused then s
  else
    let clamped := min dt cfg.maxDeltaTime
    if clamped ≤ 0 then s
    else
      let substeps := (⌈clamped / cfg.targetTimeStep⌉).toNat
      let actual := min substeps cfg.maxSubsteps
      let stepTime := clamped / (actual : ℚ)
      (stepFn stepTime)^[actual] s

end PhysicsEngine

/-- Claim C4: `update(dt)` is a no-op on the simulation state when paused or
when the clamped dt is ≤ 0; otherwise dt is clamped to `maxDeltaTime`, the
sub-step count is `min(ceil(dt / targetTimeStep), maxSubsteps)`, and the
state is advanced by exactly that many sub-steps of size `dt / substeps`
(for any per-sub-step transition function). -/
theorem claim4_update_stepping {S : Type} (stepFn : ℚ → S → S)
    (cfg : PhysicsConfig) (paused : Bool) (dt : ℚ) (s : S) :
    (paused = true → PhysicsEngine.update stepFn cfg paused dt s = s) ∧
    (min dt cfg.maxDeltaTime ≤ 0 →
      PhysicsEngine.update stepFn cfg paused dt s = s) ∧
    (paused = false → 0 < min dt cfg.maxDeltaTime →
      PhysicsEngine.update stepFn cfg paused dt s =
        (stepFn (min dt cfg.maxDeltaTime /
          ((min (⌈min dt cfg.maxDeltaTime / cfg.targetTimeStep⌉.toNat)
            cfg.maxSubsteps : ℕ) : ℚ)))^[
          min (⌈min dt cfg.maxDeltaTime / cfg.targetTimeStep⌉.toNat)
            cfg.maxSubsteps] s) := by
  refine ⟨?_, ?_, ?_⟩
  · intro h
    unfold PhysicsEngine.update
    rw [if_pos h]
  · intro h
    unfold PhysicsEngine.update
    by_cases hp : paused
    · rw [if_pos hp]
    · simp only [Bool.not_eq_true] at hp
      rw [hp]
      simp only [Bool.false_eq_true, if_false, if_pos h]
  · intro hp h
    unfold PhysicsEngine.update
    rw [hp]
    simp only [Bool.false_eq_true, if_false, if_neg (not_le.mpr h)]

/-- Witness for C4 with cfg = (maxSubsteps 4, maxDeltaTime 1/30,
targetTimeStep 1/60) and dt = 1/25: the clamped dt is 1/30, the sub-step
count is min(ceil(2), 4) = 2, and counting sub-steps on S = ℕ gives 2;
a paused engine and dt = 0 are no-ops. -/
theorem claim4_witness :
    PhysicsEngine.update (fun _ k => k + 1) ⟨4, 1 / 30, 1 / 60⟩ false (1 / 25) 0 = 2 ∧
    PhysicsEngine.update (fun _ k => k + 1) ⟨4, 1 / 30, 1 / 60⟩ true (1 / 25) 5 = 5 ∧
    PhysicsEngine.update (fun _ k => k + 1) ⟨4, 1 / 30, 1 / 60⟩ false 0 5 = 5 := by
  have h := claim4_update_stepping (S := ℕ) (fun _ k => k + 1)
    ⟨4, 1 / 30, 1 / 60⟩ false (1 / 25) 0
  have h2 := claim4_update_stepping (S := ℕ) (fun _ k => k + 1)
    ⟨4, 1 / 30, 1 / 60⟩ true (1 / 25) 5
  have h3 := claim4_update_stepping (S := ℕ) (fun _ k => k + 1)
    ⟨4, 1 / 30, 1 / 60⟩ false 0 5
  refine ⟨?_, h2.1 rfl, h3.2.1 (by norm_num)⟩
  rw [h.2.2 rfl (by norm_num)]
  norm_num [Function.iterate_succ, Function.iterate_zero]
  rfl

namespace PhysicsEngine

/-- The closed integer interval `[lo, hi]` as a list (empty when `hi < lo`),
used for the inclusive cell loops `for (x = minX; x <= maxX; x++)`. -/
def intRange (lo hi : ℤ) : List ℤ :=
  (List.range (hi + 1 - lo).toNat).map (fun (k : ℕ) => lo + (k : ℤ))

/-- The spatial-hash cells covered by an object's bounding box, from
`updateSpatialHash` / `getNearbyObjects` (advanced engine):
`floor(bounds.left / cellSize) .. floor(bounds.right / cellSize)` crossed with
the same for top/bottom. String keys `x,y` are modelled as `ℤ × ℤ` pairs. -/
def spatialCells (cellSize : ℚ) (o : GameObject) : List (ℤ × ℤ) :=
  (intRange ⌊o.getBounds.left / cellSize⌋ ⌊o.getBounds.right / cellSize⌋).bind
    (fun cx =>
      (intRange ⌊o.getBounds.top / cellSize⌋
        ⌊o.getBounds.bottom / cellSize⌋).map (fun cy => (cx, cy)))

/-- `updateSpatialHash` (advanced engine): rebuilds the hash by inserting
every active object into every cell its box overlaps. The Map of Sets is
modelled by its lookup function: the occupants of a cell are exactly the
active objects whose cell range covers it (in list order). -/
def updateSpatialHash (cellSize : ℚ) (objs : List GameObject) :
    ℤ × ℤ → List GameObject :=
  fun c => objs.filter (fun o => o.active && decide (c ∈ spatialCells cellSize o))

/-- `getNearbyObjects` (advanced engine, broad-phase enabled): union of the
occupants of every cell the object's box overlaps. The JS `Set` dedup affects
only multiplicity; `dedup` keeps first occurrences like Set insertion order. -/
def getNearbyObjects (hash : ℤ × ℤ → List GameObject) (cellSize : ℚ)
    (o : GameObject) : List GameObject :=
  ((spatialCells cellSize o).bind hash).dedup

/-- `shouldObjectsCollide` (advanced engine): symmetric layer/mask
intersection, with `CollisionLayer.Default` (modelled as layer 0) as the
fallback for absent layer/mask lists. -/
def shouldObjectsCollide (a b : GameObject) : Bool :=
  match a.physics, b.physics with
  | some pa, some pb =>
    let layersA := pa.collisionLayers.getD [0]
    let maskA := pa.collisionMask.getD [0]
    let layersB := pb.collisionLayers.getD [0]
    let maskB := pb.collisionMask.getD [0]
    (layersB.any (fun l => maskA.contains l)) &&
      (layersA.any (fun l => maskB.contains l))
  | _, _ => false

/-- `shouldCheckCollision` (advanced engine): both active, both with physics,
not static-static, layer filter, not in the same non-empty collision group,
not both asleep (when sleeping is enabled). -/
def shouldCheckCollision (enableSleeping : Bool) (a b : GameObject) : Bool :=
  a.active && b.active && a.physics.isSome && b.physics.isSome &&
  !(a.isStaticBody && b.isStaticBody) &&
  shouldObjectsCollide a b &&
  !(match a.physics, b.physics with
    | some pa, some pb => pa.collisionGroup.isSome &&
        pa.collisionGroup == pb.collisionGroup
    | _, _ => false) &&
  !(enableSleeping && (match a.physics, b.physics with
    | some pa, some pb => pa.isSleeping && pb.isSleeping
    | _, _ => false))

/-- The broad phase of `handleCollisions` (advanced engine): for each active
object with physics, pair it with each nearby candidate of larger id that
passes `shouldCheckCollision`; these are exactly the pairs handed to the
narrow-phase `checkCollision`. -/
def broadPhasePairs (broadPhase enableSleeping : Bool)
    (hash : ℤ × ℤ → List GameObject) (cellSize : ℚ)
    (objs : List GameObject) : List (GameObject × GameObject) :=
  objs.bind (fun a =>
    if a.active && a.physics.isSome then
      ((if broadPhase then getNearbyObjects hash cellSize a else objs).filter
        (fun b => a.id < b.id && shouldCheckCollision enableSleeping a b)).map
        (fun b => (a, b))
    else [])

end PhysicsEngine

/-- Membership in `intRange` is exactly the closed interval. -/
theorem PhysicsEngine.mem_intRange (lo hi k : ℤ) :
    k ∈ PhysicsEngine.intRange lo hi ↔ lo ≤ k ∧ k ≤ hi := by
  unfold PhysicsEngine.intRange
  rw [List.mem_map]
  constructor
  · rintro ⟨m, hm, rfl⟩
    rw [List.mem_range] at hm
    omega
  · rintro ⟨h1, h2⟩
    refine ⟨(k - lo).toNat, ?_, ?_⟩
    · rw [List.mem_range]
      omega
    · omega

/-- Membership in `spatialCells` is exactly the floor-range box. -/
theorem PhysicsEngine.mem_spatialCells (cellSize : ℚ) (o : GameObject)
    (cx cy : ℤ) :
    (cx, cy) ∈ PhysicsEngine.spatialCells cellSize o ↔
      (⌊o.getBounds.left / cellSize⌋ ≤ cx ∧
        cx ≤ ⌊o.getBounds.right / cellSize⌋) ∧
      (⌊o.getBounds.top / cellSize⌋ ≤ cy ∧
        cy ≤ ⌊o.getBounds.bottom / cellSize⌋) := by
  simp only [PhysicsEngine.spatialCells, List.mem_bind, List.mem_map,
    PhysicsEngine.mem_intRange, Prod.mk.injEq]
  constructor
  · rintro ⟨x, hx, y, hy, rfl, rfl⟩
    exact ⟨hx, hy⟩
  · rintro ⟨hx, hy⟩
    exact ⟨cx, hx, cy, hy, rfl, rfl⟩

/-- Broad-phase soundness when the hash reflects the current object states:
if `b` is an active listed object whose box overlaps `a`'s box (positive
overlap on both axes), then `b` is among `a`'s nearby candidates. This is the
claim's no-false-negative property — it holds for a freshly rebuilt hash. -/
theorem PhysicsEngine.getNearbyObjects_superset (cellSize : ℚ)
    (hcs : 0 < cellSize) (objs : List GameObject) (a b : GameObject)
    (hb : b ∈ objs) (hact : b.active = true)
    (hox : 0 < CollisionDetector.overlapX a b)
    (hoy : 0 < CollisionDetector.overlapY a b) :
    b ∈ PhysicsEngine.getNearbyObjects
      (PhysicsEngine.updateSpatialHash cellSize objs) cellSize a := by
  have hx1 : a.getBounds.left ≤ b.getBounds.right := by
    have := hox
    unfold CollisionDetector.overlapX at this
    have h1 : max a.getBounds.left b.getBounds.left <
        min a.getBounds.right b.getBounds.right := by linarith
    calc a.getBounds.left ≤ max a.getBounds.left b.getBounds.left :=
          le_max_left _ _
      _ ≤ min a.getBounds.right b.getBounds.right := le_of_lt h1
      _ ≤ b.getBounds.right := min_le_right _ _
  have hx2 : b.getBounds.left ≤ a.getBounds.right := by
    have := hox
    unfold CollisionDetector.overlapX at this
    have h1 : max a.getBounds.left b.getBounds.left <
        min a.getBounds.right b.getBounds.right := by linarith
    calc b.getBounds.left ≤ max a.getBounds.left b.getBounds.left :=
          le_max_right _ _
      _ ≤ min a.getBounds.right b.getBounds.right := le_of_lt h1
      _ ≤ a.getBounds.right := min_le_left _ _
  have hx3 : a.getBounds.left ≤ a.getBounds.right := by
    have := hox
    unfold CollisionDetector.overlapX at this
    have h1 : max a.getBounds.left b.getBounds.left <
        min a.getBounds.right b.getBounds.right := by linarith
    calc a.getBounds.left ≤ max a.getBounds.left b.getBounds.left :=
          le_max_left _ _
      _ ≤ min a.getBounds.right b.getBounds.right := le_of_lt h1
      _ ≤ a.getBounds.right := min_le_left _ _
  have hx4 : b.getBounds.left ≤ b.getBounds.right := by
    have := hox
    unfold CollisionDetector.overlapX at this
    have h1 : max a.getBounds.left b.getBounds.left <
        min a.getBounds.right b.getBounds.right := by linarith
    calc b.getBounds.left ≤ max a.getBounds.left b.getBounds.left :=
          le_max_right _ _
      _ ≤ min a.getBounds.right b.getBounds.right := le_of_lt h1
      _ ≤ b.getBounds.right := min_le_right _ _
  have hy1 : a.getBounds.top ≤ b.getBounds.bottom := by
    have := hoy
    unfold CollisionDetector.overlapY at this
    have h1 : max a.getBounds.top b.getBounds.top <
        min a.getBounds.bottom b.getBounds.bottom := by linarith
    calc a.getBounds.top ≤ max a.getBounds.top b.getBounds.top :=
          le_max_left _ _
      _ ≤ min a.getBounds.bottom b.getBounds.bottom := le_of_lt h1
      _ ≤ b.getBounds.bottom := min_le_right _ _
  have hy2 : b.getBounds.top ≤ a.getBounds.bottom := by
    have := hoy
    unfold CollisionDetector.overlapY at this
    have h1 : max a.getBounds.top b.getBounds.top <
        min a.getBounds.bottom b.getBounds.bottom := by linarith
    calc b.getBounds.top ≤ max a.getBounds.top b.getBounds.top :=
          le_max_right _ _
      _ ≤ min a.getBounds.bottom b.getBounds.bottom := le_of_lt h1
      _ ≤ a.getBounds.bottom := min_le_left _ _
  have hy3 : a.getBounds.top ≤ a.getBounds.bottom := by
    have := hoy
    unfold CollisionDetector.overlapY at this
    have h1 : max a.getBounds.top b.getBounds.top <
        min a.getBounds.bottom b.getBounds.bottom := by linarith
    calc a.getBounds.top ≤ max a.getBounds.top b.getBounds.top :=
          le_max_left _ _
      _ ≤ min a.getBounds.bottom b.getBounds.bottom := le_of_lt h1
      _ ≤ a.getBounds.bottom := min_le_left _ _
  have hy4 : b.getBounds.top ≤ b.getBounds.bottom := by
    have := hoy
    unfold CollisionDetector.overlapY at this
    have h1 : max a.getBounds.top b.getBounds.top <
        min a.getBounds.bottom b.getBounds.bottom := by linarith
    calc b.getBounds.top ≤ max a.getBounds.top b.getBounds.top :=
          le_max_right _ _
      _ ≤ min a.getBounds.bottom b.getBounds.bottom := le_of_lt h1
      _ ≤ b.getBounds.bottom := min_le_right _ _
  have hdiv : ∀ u v : ℚ, u ≤ v → ⌊u / cellSize⌋ ≤ ⌊v / cellSize⌋ := by
    intro u v huv
    exact Int.floor_le_floor (by gcongr)
  set cx : ℤ := max ⌊a.getBounds.left / cellSize⌋ ⌊b.getBounds.left / cellSize⌋
    with hcx
  set cy : ℤ := max ⌊a.getBounds.top / cellSize⌋ ⌊b.getBounds.top / cellSize⌋
    with hcy
  have hcella : (cx, cy) ∈ PhysicsEngine.spatialCells cellSize a := by
    rw [PhysicsEngine.mem_spatialCells]
    refine ⟨⟨le_max_left _ _, ?_⟩, le_max_left _ _, ?_⟩
    · exact max_le (hdiv _ _ hx3) (hdiv _ _ hx2)
    · exact max_le (hdiv _ _ hy3) (hdiv _ _ hy2)
  have hcellb : (cx, cy) ∈ PhysicsEngine.spatialCells cellSize b := by
    rw [PhysicsEngine.mem_spatialCells]
    refine ⟨⟨le_max_right _ _, ?_⟩, le_max_right _ _, ?_⟩
    · exact max_le (hdiv _ _ hx1) (hdiv _ _ hx4)
    · exact max_le (hdiv _ _ hy1) (hdiv _ _ hy4)
  unfold PhysicsEngine.getNearbyObjects
  rw [List.mem_dedup, List.mem_bind]
  refine ⟨(cx, cy), hcella, ?_⟩
  unfold PhysicsEngine.updateSpatialHash
  rw [List.mem_filter]
  exact ⟨hb, by simp [hact, hcellb]⟩

/-- With an empty spatial hash (the engine's initial state: the hash is only
rebuilt after the sub-steps of an update), the broad phase produces no pairs
at all, whatever the objects. -/
theorem PhysicsEngine.broadPhasePairs_empty_hash (enableSleeping : Bool)
    (cellSize : ℚ) (objs : List GameObject) :
    PhysicsEngine.broadPhasePairs true enableSleeping (fun _ => []) cellSize
      objs = [] := by
  unfold PhysicsEngine.broadPhasePairs
  rw [List.bind_eq_nil]
  intro a _
  have hbind : ∀ l : List (ℤ × ℤ), (l.bind fun _ => ([] : List GameObject)) = [] := by
    intro l
    induction l with
    | nil => rfl
    | cons x xs ih => simp [List.bind, ih]
  by_cases h : a.active && a.physics.isSome
  · rw [if_pos h, if_pos rfl]
    unfold PhysicsEngine.getNearbyObjects
    rw [hbind]
    rfl
  · rw [if_neg h]

/-- Claim C5, evaluated at the failing input: two overlapping, active,
dynamic 10×10 boxes at (0,0) and (5,0) in a fresh engine with broad-phase
optimization on (cell size 100). They overlap (narrow phase would report a
collision) and pass every collision filter, yet during the first `update` the
spatial hash is still empty — `updateSpatialHash` only runs after the
sub-steps, and `handleCollisions` runs inside them — so the broad phase
produces no pairs at all: the pair never reaches the narrow phase, violating
the claim's "false negatives must not occur". Once the hash is rebuilt from
the current states, the same pair is found (fourth conjunct). -/
theorem claim5_first_update_miss :
    CollisionDetector.checkAABBCollision detA detB ≠ none ∧
    PhysicsEngine.shouldCheckCollision true detA detB = true ∧
    PhysicsEngine.broadPhasePairs true true (fun _ => []) 100 [detA, detB] =
      [] ∧
    detB ∈ PhysicsEngine.getNearbyObjects
      (PhysicsEngine.updateSpatialHash 100 [detA, detB]) 100 detA := by
  refine ⟨?_, ?_, PhysicsEngine.broadPhasePairs_empty_hash true 100 _, ?_⟩
  · norm_num [CollisionDetector.checkAABBCollision, CollisionDetector.overlapX,
      CollisionDetector.overlapY, detA, detB, mkObj, mkBody,
      GameObject.getBounds]
    intro h
    exact Option.noConfusion h
  · norm_num [PhysicsEngine.shouldCheckCollision,
      PhysicsEngine.shouldObjectsCollide, GameObject.isStaticBody,
      detA, detB, mkObj, mkBody]
  · apply PhysicsEngine.getNearbyObjects_superset 100 (by norm_num)
      [detA, detB] detA detB (by simp) rfl
    · norm_num [CollisionDetector.overlapX, detA, detB, mkObj, mkBody,
        GameObject.getBounds]
    · norm_num [CollisionDetector.overlapY, detA, detB, mkObj, mkBody,
        GameObject.getBounds]

namespace PhysicsEngine

/-- `shouldSimulateObject` (advanced engine): active, has physics, not
static, and (when sleeping is enabled) not asleep. Sleeping bodies are
excluded from force application and integration. -/
def shouldSimulateObject (enableSleeping : Bool) (o : GameObject) : Bool :=
  o.active && o.physics.isSome && !(o.isStaticBody) &&
    (!enableSleeping || !(match o.physics with
      | some p => p.isSleeping
      | none => false))

/-- One body's pass of `updateSleepStates` (advanced engine): static bodies
are skipped; a slow body (`|velocity| < velocityThreshold` — embedded as
`magnitudeSquared < threshold^2`, see `Vector2D.magnitudeSquared` — and
`|angularVelocity| < 0.01`) increments its sleep timer and, once the timer
exceeds 60 while the body was awake, goes to sleep with velocity and angular
velocity zeroed and a sleep event; a non-slow body has its timer reset to 0,
waking (with a wake event) if it was asleep. Returns
(new body, sleep event fired, wake event fired). -/
def updateSleepState (velocityThreshold : ℚ) (p : PhysicsBody) :
    PhysicsBody × Bool × Bool :=
  if p.isStatic then (p, false, false)
  else if p.velocity.magnitudeSquared < velocityThreshold ^ 2 ∧ |p.angularVelocity| < 1 / 100 then
    (if 60 < p.sleepTimer + 1 ∧ p.isSleeping = false then
      ({ p with sleepTimer := p.sleepTimer + 1, isSleeping := true, velocity := ⟨0, 0⟩, angularVelocity := 0 }, true, false)
    else
      ({ p with sleepTimer := p.sleepTimer + 1 }, false, false))
  else
    (if p.isSleeping then ({ p with sleepTimer := 0, isSleeping := false }, false, true)
     else ({ p with sleepTimer := 0, isSleeping := false }, false, false))

/-- Iterate `updateSleepState` (one call per engine update, as
`updateSleepStates` runs once per `update`), counting emitted sleep events. -/
def sleepRun (velocityThreshold : ℚ) (p : PhysicsBody) :
    ℕ → PhysicsBody × ℕ
  | 0 => (p, 0)
  | n + 1 =>
    let r := sleepRun velocityThreshold p n
    let s := updateSleepState velocityThreshold r.1
    (s.1, r.2 + (if s.2.1 then 1 else 0))

end PhysicsEngine

/-- A slow awake body with timer still within the 60-step budget only has
its timer incremented. -/
theorem PhysicsEngine.updateSleepState_slow_awake (t : ℚ) (q : PhysicsBody)
    (hs : q.isStatic = false) (_hsl : q.isSleeping = false)
    (hv : q.velocity.magnitudeSquared < t ^ 2)
    (hw : |q.angularVelocity| < 1 / 100) (hlt : ¬ 60 < q.sleepTimer + 1) :
    PhysicsEngine.updateSleepState t q =
      ({ q with sleepTimer := q.sleepTimer + 1 }, false, false) := by
  unfold PhysicsEngine.updateSleepState
  rw [if_neg (by simp [hs]), if_pos ⟨hv, hw⟩, if_neg (fun h => hlt h.1)]

/-- A slow awake body whose timer passes 60 falls asleep: velocity and
angular velocity are zeroed and the sleep event fires. -/
theorem PhysicsEngine.updateSleepState_fall_asleep (t : ℚ) (q : PhysicsBody)
    (hs : q.isStatic = false) (hsl : q.isSleeping = false)
    (hv : q.velocity.magnitudeSquared < t ^ 2)
    (hw : |q.angularVelocity| < 1 / 100) (hgt : 60 < q.sleepTimer + 1) :
    PhysicsEngine.updateSleepState t q =
      ({ q with sleepTimer := q.sleepTimer + 1, isSleeping := true, velocity := ⟨0, 0⟩, angularVelocity := 0 }, true, false) := by
  unfold PhysicsEngine.updateSleepState
  rw [if_neg (by simp [hs]), if_pos ⟨hv, hw⟩, if_pos ⟨hgt, hsl⟩]

/-- A slow body that is already asleep stays asleep with no further event. -/
theorem PhysicsEngine.updateSleepState_asleep_stays (t : ℚ) (q : PhysicsBody)
    (hs : q.isStatic = false) (hsl : q.isSleeping = true)
    (hv : q.velocity.magnitudeSquared < t ^ 2)
    (hw : |q.angularVelocity| < 1 / 100) :
    PhysicsEngine.updateSleepState t q =
      ({ q with sleepTimer := q.sleepTimer + 1 }, false, false) := by
  unfold PhysicsEngine.updateSleepState
  rw [if_neg (by simp [hs]), if_pos ⟨hv, hw⟩,
    if_neg (fun h => absurd h.2 (by simp [hsl]))]

/-- One-step unfolding of `sleepRun`. -/
theorem PhysicsEngine.sleepRun_succ (t : ℚ) (p : PhysicsBody) (n : ℕ) :
    PhysicsEngine.sleepRun t p (n + 1) =
      ((PhysicsEngine.updateSleepState t (PhysicsEngine.sleepRun t p n).1).1,
        (PhysicsEngine.sleepRun t p n).2 +
          (if (PhysicsEngine.updateSleepState t
              (PhysicsEngine.sleepRun t p n).1).2.1 then 1 else 0)) := rfl

/-- State characterization of the sleep run for a body held slow: for the
first 60 updates only the timer grows; from the 61st update on the body is
asleep with zero velocity, and exactly one sleep event has fired. -/
theorem PhysicsEngine.sleepRun_spec (t : ℚ) (p : PhysicsBody) (htpos : 0 < t)
    (hs : p.isStatic = false) (hsl : p.isSleeping = false)
    (ht : p.sleepTimer = 0) (hv : p.velocity.magnitudeSquared < t ^ 2)
    (hw : |p.angularVelocity| < 1 / 100) :
    ∀ k : ℕ,
      (k ≤ 60 → PhysicsEngine.sleepRun t p k = ({ p with sleepTimer := k }, 0)) ∧
      (61 ≤ k → PhysicsEngine.sleepRun t p k = ({ p with sleepTimer := k, isSleeping := true, velocity := ⟨0, 0⟩, angularVelocity := 0 }, 1)) := by
  intro k
  induction k with
  | zero =>
    refine ⟨fun _ => ?_, fun h => absurd h (by omega)⟩
    have hp : ({ p with sleepTimer := 0 } : PhysicsBody) = p := by
      rw [← ht]
    rw [hp]
    rfl
  | succ k ih =>
    constructor
    · intro hk1
      have hk : k ≤ 60 := by omega
      have hq := ih.1 hk
      have hstep := PhysicsEngine.updateSleepState_slow_awake t
        ({ p with sleepTimer := k } : PhysicsBody) hs hsl hv hw (by
          show ¬ 60 < k + 1
          omega)
      rw [PhysicsEngine.sleepRun_succ, hq]
      simp only [hstep]
      rfl
    · intro hk1
      by_cases hk : k + 1 = 61
      · have hk60 : k = 60 := by omega
        subst hk60
        have hq := ih.1 (le_refl 60)
        have hstep := PhysicsEngine.updateSleepState_fall_asleep t
          ({ p with sleepTimer := 60 } : PhysicsBody) hs hsl hv hw (by
            show 60 < 60 + 1
            omega)
        rw [PhysicsEngine.sleepRun_succ, hq]
        simp only [hstep]
        rfl
      · have hk61 : 61 ≤ k := by omega
        have hq := ih.2 hk61
        have hz : (Vector2D.mk 0 0).magnitudeSquared < t ^ 2 := by
          simp only [Vector2D.magnitudeSquared]
          nlinarith
        have habs0 : |(0 : ℚ)| < (1 : ℚ) / 100 := by norm_num
        have hstep := PhysicsEngine.updateSleepState_asleep_stays t
          ({ p with sleepTimer := k, isSleeping := true, velocity := ⟨0, 0⟩, angularVelocity := 0 } : PhysicsBody)
          hs rfl hz habs0
        rw [PhysicsEngine.sleepRun_succ, hq]
        simp only [hstep]
        rfl

/-- Claim C7 as amended: (i) a non-static awake body whose velocity stays
below `velocityThreshold` (and angular speed below 0.01) enters sleep exactly
once, after more than 60 consecutive updates (at the 61st), with velocity set
to exactly (0,0) and one sleep event emitted over the whole run; but (ii) an
externally applied force does NOT wake a sleeping body: `GameObject.applyForce`
only accumulates into the force accumulator and leaves the sleep flag and the
sleep timer untouched (it resets nothing and emits nothing); moreover the
engine excludes sleeping bodies from simulation, so the accumulated force is
not integrated while the body sleeps. A sleeping body wakes only through
collision resolution or when its velocity is at or above the threshold at a
later sleep update. -/
theorem claim7_sleep_entry_no_force_wake (t : ℚ) (p : PhysicsBody) (n : ℕ)
    (htpos : 0 < t) (hs : p.isStatic = false) (hsl : p.isSleeping = false)
    (ht : p.sleepTimer = 0) (hv : p.velocity.magnitudeSquared < t ^ 2)
    (hw : |p.angularVelocity| < 1 / 100) (hn : 61 ≤ n) :
    ((PhysicsEngine.sleepRun t p n).1.isSleeping = true ∧
      (PhysicsEngine.sleepRun t p n).1.velocity = ⟨0, 0⟩ ∧
      (PhysicsEngine.sleepRun t p n).2 = 1 ∧
      ∀ k ≤ 60, (PhysicsEngine.sleepRun t p k).1.isSleeping = false ∧
        (PhysicsEngine.sleepRun t p k).2 = 0) ∧
    (∀ (o : GameObject) (f : Vector2D),
      (o.applyForce f).physics.map PhysicsBody.isSleeping =
        o.physics.map PhysicsBody.isSleeping ∧
      (o.applyForce f).physics.map PhysicsBody.sleepTimer =
        o.physics.map PhysicsBody.sleepTimer) := by
  have hspec := PhysicsEngine.sleepRun_spec t p htpos hs hsl ht hv hw
  constructor
  · have hn1 := (hspec n).2 hn
    rw [hn1]
    refine ⟨rfl, rfl, rfl, ?_⟩
    intro k hk
    have hk1 := (hspec k).1 hk
    rw [hk1]
    exact ⟨hsl, rfl⟩
  · intro o f
    have h := GameObject.applyForce_fields o f
    exact ⟨h.2.2.1, h.2.2.2⟩

/-- A sleeping test body: non-static, mass 1, at rest, timer 61. -/
def sleepBody : PhysicsBody :=
  { mass := 1, velocity := ⟨0, 0⟩, isStatic := false, isSleeping := true, sleepTimer := 61 }

/-- A sleeping test object carrying `sleepBody`. -/
def sleepObj : GameObject :=
  { id := 0, position := ⟨0, 0⟩, size := ⟨1, 1⟩, physics := some sleepBody }

/-- Counterexample to claim C7's wake clause: applying the non-zero force
(3,4) to a sleeping body leaves it asleep with its sleep timer still at 61
(the claim requires the timer to be reset to zero and a wake event; the
engine has no wake path in `applyForce`, and `shouldSimulateObject` stays
false, so the force is never integrated while the body sleeps). -/
theorem claim7_counterexample :
    ((sleepObj.applyForce ⟨3, 4⟩).physics.map PhysicsBody.isSleeping =
      some true) ∧
    ((sleepObj.applyForce ⟨3, 4⟩).physics.map PhysicsBody.sleepTimer =
      some 61) ∧
    (PhysicsEngine.shouldSimulateObject true (sleepObj.applyForce ⟨3, 4⟩) =
      false) ∧
    (Vector2D.mk 3 4 ≠ ⟨0, 0⟩) := by
  refine ⟨?_, ?_, ?_, ?_⟩
  · simp [sleepObj, sleepBody, GameObject.applyForce, Vector2D.add]
  · simp [sleepObj, sleepBody, GameObject.applyForce, Vector2D.add]
  · simp [sleepObj, sleepBody, GameObject.applyForce, Vector2D.add,
      PhysicsEngine.shouldSimulateObject, GameObject.isStaticBody]
  · intro h
    have := congrArg Vector2D.x h
    norm_num at this

/-- Witness for C7's amended theorem: a concrete slow body (velocity
(1/10, 0), ω = 0, threshold 1/2) run for 61 updates is asleep with velocity
(0,0) and exactly one sleep event; `applyForce` on the concrete sleeping
object preserves its sleep state. -/
theorem claim7_witness :
    ((PhysicsEngine.sleepRun (1 / 2) (mkBody 1 ⟨1 / 10, 0⟩ false) 61).1.isSleeping = true ∧
      (PhysicsEngine.sleepRun (1 / 2) (mkBody 1 ⟨1 / 10, 0⟩ false) 61).1.velocity = ⟨0, 0⟩ ∧
      (PhysicsEngine.sleepRun (1 / 2) (mkBody 1 ⟨1 / 10, 0⟩ false) 61).2 = 1) ∧
    ((sleepObj.applyForce ⟨3, 4⟩).physics.map PhysicsBody.isSleeping =
      sleepObj.physics.map PhysicsBody.isSleeping) := by
  have h := claim7_sleep_entry_no_force_wake (1 / 2)
    (mkBody 1 ⟨1 / 10, 0⟩ false) 61 (by norm_num)
    (by norm_num [mkBody]) (by norm_num [mkBody]) (by norm_num [mkBody])
    (by norm_num [mkBody, Vector2D.magnitudeSquared])
    (by norm_num [mkBody]) (le_refl 61)
  exact ⟨⟨h.1.1, h.1.2.1, h.1.2.2.1⟩, (h.2 sleepObj ⟨3, 4⟩).1⟩

namespace SimplePhysicsEngine

/-- `applyGravity` of the simple engine (src/src/physics/PhysicsEngine.ts),
per object: `gravityForce = gravity.multiply(deltaTime)`; every non-static
object with physics and positive mass receives
`applyForce(gravityForce.multiply(mass))`. -/
def applyGravityObj (gravity : Vector2D) (dt : ℚ) (o : GameObject) : GameObject :=
  match o.physics with
  | some p =>
    if p.isStatic = false ∧ 0 < p.mass then
      o.applyForce (((gravity.multiply dt)).multiply p.mass)
    else o
  | none => o

/-- `updateObjectPhysics` of the simple engine: acceleration plus force/mass
(when mass > 0), velocity integration, linear `1 - friction·dt` decay,
position and rotation integration, force reset. -/
def updateObjectPhysics (o : GameObject) (dt : ℚ) : GameObject :=
  match o.physics with
  | none => o
  | some p =>
    let a : Vector2D :=
      if 0 < p.mass then
        ⟨p.acceleration.x + p.force.x / p.mass, p.acceleration.y + p.force.y / p.mass⟩
      else p.acceleration
    let v1 : Vector2D := ⟨p.velocity.x + a.x * dt, p.velocity.y + a.y * dt⟩
    let fr := 1 - p.friction * dt
    let v2 : Vector2D := ⟨v1.x * fr, v1.y * fr⟩
    { o with
      position := ⟨o.position.x + v2.x * dt, o.position.y + v2.y * dt⟩,
      rotation := o.rotation + p.angularVelocity * dt,
      physics := some { p with velocity := v2, force := ⟨0, 0⟩ } }

/-- The integration guard of the simple engine's `update`: only active,
non-static objects with physics are integrated. -/
def integrateIfDynamic (dt : ℚ) (o : GameObject) : GameObject :=
  match o.physics with
  | some p =>
    if o.active = true ∧ p.isStatic = false then updateObjectPhysics o dt else o
  | none => o

/-- `resolveCollision` of the simple engine: separate both non-static bodies
by half the penetration each, skip velocity resolution when
`velocityAlongNormal > 0`, otherwise apply `±impulse·mass` through
`GameObject.applyImpulse` (which divides by mass again). -/
def resolveCollision (objA objB : GameObject) (collision : CollisionEvent) :
    GameObject × GameObject :=
  match objA.physics, objB.physics with
  | some pA, some pB =>
    let normal := collision.normal
    let separation := normal.multiply (collision.penetration / 2)
    let a1 := if pA.isStatic then objA
      else { objA with position := objA.position.subtract separation }
    let b1 := if pB.isStatic then objB
      else { objB with position := objB.position.add separation }
    let relativeVelocity : Vector2D :=
      ⟨pB.velocity.x - pA.velocity.x, pB.velocity.y - pA.velocity.y⟩
    let velocityAlongNormal := relativeVelocity.dot normal
    if 0 < velocityAlongNormal then (a1, b1)
    else
      let restitution := min pA.restitution pB.restitution
      let j0 := -(1 + restitution) * velocityAlongNormal
      let totalMass := pA.mass + pB.mass
      let j := if 0 < totalMass then j0 / totalMass else j0
      let impulse := normal.multiply j
      let a2 := if pA.isStatic = false ∧ 0 < pA.mass then
          a1.applyImpulse (impulse.multiply (-pA.mass))
        else a1
      let b2 := if pB.isStatic = false ∧ 0 < pB.mass then
          b1.applyImpulse (impulse.multiply pB.mass)
        else b1
      (a2, b2)
  | _, _ => (objA, objB)

/-- One pair interaction of the simple engine's `handleCollisions` double
loop: skip inactive or physics-less objects, narrow-phase test, resolve. -/
def collidePair (a b : GameObject) : GameObject × GameObject :=
  if a.active = true ∧ b.active = true ∧ a.physics.isSome ∧ b.physics.isSome then
    match CollisionDetector.checkAABBCollision a b with
    | some ev => resolveCollision a b ev
    | none => (a, b)
  else (a, b)

/-- The inner `j` loop of `handleCollisions`: interact object `a` with every
later object in order, threading the in-place updates of both. -/
def interactOne (a : GameObject) : List GameObject → GameObject × List GameObject
  | [] => (a, [])
  | b :: bs =>
    let r1 := collidePair a b
    let r2 := interactOne r1.1 bs
    (r2.1, r1.2 :: r2.2)

/-- `interactOne` preserves the number of objects. -/
theorem interactOne_length :
    ∀ (l : List GameObject) (a : GameObject),
      ((interactOne a l).2).length = l.length := by
  intro l
  induction l with
  | nil => intro a; rfl
  | cons b bs ih =>
    intro a
    simp only [interactOne, List.length_cons]
    rw [ih]

/-- `handleCollisions` of the simple engine: the `i < j` double loop with
in-place mutation, as a fold over the object list. -/
def handleCollisions : List GameObject → List GameObject
  | [] => []
  | a :: rest =>
    let r := interactOne a rest
    r.1 :: handleCollisions r.2
termination_by l => l.length
decreasing_by
  simp only [List.length_cons]
  rw [interactOne_length]
  omega

/-- `update` of the simple engine: apply gravity to every object, integrate
every active dynamic object, then detect and resolve collisions. -/
def update (gravity : Vector2D) (dt : ℚ) (objs : List GameObject) :
    List GameObject :=
  handleCollisions ((objs.map (applyGravityObj gravity dt)).map (integrateIfDynamic dt))

end SimplePhysicsEngine

/-- External interactions with the simple engine: an engine step, or an
externally applied force / impulse on the i-th object. -/
inductive EngineAction where
  | step : ℚ → EngineAction
  | force : ℕ → Vector2D → EngineAction
  | impulse : ℕ → Vector2D → EngineAction
deriving DecidableEq, Repr

/-- Apply `f` to the i-th element of a list. -/
def modifyAt (i : ℕ) (f : GameObject → GameObject) :
    List GameObject → List GameObject
  | [] => []
  | x :: xs =>
    match i with
    | 0 => f x :: xs
    | j + 1 => x :: modifyAt j f xs

/-- Run a sequence of engine steps and external force/impulse applications. -/
def runActions (gravity : Vector2D) :
    List EngineAction → List GameObject → List GameObject
  | [], l => l
  | EngineAction.step dt :: rest, l =>
    runActions gravity rest (SimplePhysicsEngine.update gravity dt l)
  | EngineAction.force i f :: rest, l =>
    runActions gravity rest (modifyAt i (fun o => o.applyForce f) l)
  | EngineAction.impulse i f :: rest, l =>
    runActions gravity rest (modifyAt i (fun o => o.applyImpulse f) l)

/-- The per-object invariant: if `o` is a static body, the transformed
object is exactly `o`. -/
def StaticUnchanged (o o' : GameObject) : Prop :=
  o.isStaticBody = true → o' = o

/-- `StaticUnchanged` composes. -/
theorem StaticUnchanged_trans {o o' o'' : GameObject}
    (h1 : StaticUnchanged o o') (h2 : StaticUnchanged o' o'') :
    StaticUnchanged o o'' := by
  intro hs
  have e1 := h1 hs
  have e2 := h2 (by rw [e1]; exact hs)
  rw [e2, e1]

/-- `StaticUnchanged` is reflexive. -/
theorem StaticUnchanged_refl (o : GameObject) : StaticUnchanged o o :=
  fun _ => rfl

/-- Composition of `Forall₂ StaticUnchanged` chains. -/
theorem Forall₂_staticUnchanged_comp :
    ∀ {l1 l2 l3 : List GameObject},
      List.Forall₂ StaticUnchanged l1 l2 → List.Forall₂ StaticUnchanged l2 l3 →
      List.Forall₂ StaticUnchanged l1 l3 := by
  intro l1 l2 l3 h1
  induction h1 generalizing l3 with
  | nil =>
    intro h2
    cases h2
    exact List.Forall₂.nil
  | cons hab h ih =>
    intro h2
    cases h2 with
    | cons hbc h2t => exact List.Forall₂.cons (StaticUnchanged_trans hab hbc) (ih h2t)

/-- A pointwise `StaticUnchanged` map gives the list relation. -/
theorem Forall₂_staticUnchanged_map (f : GameObject → GameObject)
    (hf : ∀ o, StaticUnchanged o (f o)) :
    ∀ l : List GameObject, List.Forall₂ StaticUnchanged l (l.map f) := by
  intro l
  induction l with
  | nil => exact List.Forall₂.nil
  | cons x xs ih => exact List.Forall₂.cons (hf x) ih

/-- `Forall₂ StaticUnchanged` is reflexive. -/
theorem Forall₂_staticUnchanged_refl :
    ∀ l : List GameObject, List.Forall₂ StaticUnchanged l l := by
  intro l
  induction l with
  | nil => exact List.Forall₂.nil
  | cons x xs ih => exact List.Forall₂.cons (StaticUnchanged_refl x) ih

/-- `modifyAt` with a pointwise `StaticUnchanged` function. -/
theorem Forall₂_staticUnchanged_modifyAt (f : GameObject → GameObject)
    (hf : ∀ o, StaticUnchanged o (f o)) :
    ∀ (l : List GameObject) (i : ℕ),
      List.Forall₂ StaticUnchanged l (modifyAt i f l) := by
  intro l
  induction l with
  | nil =>
    intro i
    simp only [modifyAt]
    exact List.Forall₂.nil
  | cons x xs ih =>
    intro i
    match i with
    | 0 =>
      simp only [modifyAt]
      exact List.Forall₂.cons (hf x) (Forall₂_staticUnchanged_refl xs)
    | j + 1 =>
      simp only [modifyAt]
      exact List.Forall₂.cons (StaticUnchanged_refl x) (ih j)

/-- Gravity application never touches a static body (the mass/static guard
fails, and `applyForce` would refuse anyway). -/
theorem SimplePhysicsEngine.applyGravityObj_static (g : Vector2D) (dt : ℚ)
    (o : GameObject) :
    StaticUnchanged o (SimplePhysicsEngine.applyGravityObj g dt o) := by
  intro hs
  rcases (GameObject.isStaticBody_iff o).1 hs with ⟨p, hp, hps⟩
  unfold SimplePhysicsEngine.applyGravityObj
  rw [hp]
  simp [hps]

/-- The integration guard skips static bodies. -/
theorem SimplePhysicsEngine.integrateIfDynamic_static (dt : ℚ)
    (o : GameObject) :
    StaticUnchanged o (SimplePhysicsEngine.integrateIfDynamic dt o) := by
  intro hs
  rcases (GameObject.isStaticBody_iff o).1 hs with ⟨p, hp, hps⟩
  unfold SimplePhysicsEngine.integrateIfDynamic
  rw [hp]
  simp [hps]

/-- Collision resolution never moves or impulses a static first body. -/
theorem SimplePhysicsEngine.resolveCollision_static_fst (a b : GameObject)
    (ev : CollisionEvent) (hs : a.isStaticBody = true) :
    (SimplePhysicsEngine.resolveCollision a b ev).1 = a := by
  rcases (GameObject.isStaticBody_iff a).1 hs with ⟨pa, hpa, hpas⟩
  unfold SimplePhysicsEngine.resolveCollision
  rw [hpa]
  cases hpb : b.physics with
  | none => rfl
  | some pb =>
    by_cases hv : 0 < (Vector2D.mk (pb.velocity.x - pa.velocity.x)
        (pb.velocity.y - pa.velocity.y)).dot ev.normal
    · simp [hpas, hv]
    · simp [hpas, hv]

/-- Collision resolution never moves or impulses a static second body. -/
theorem SimplePhysicsEngine.resolveCollision_static_snd (a b : GameObject)
    (ev : CollisionEvent) (hs : b.isStaticBody = true) :
    (SimplePhysicsEngine.resolveCollision a b ev).2 = b := by
  rcases (GameObject.isStaticBody_iff b).1 hs with ⟨pb, hpb, hpbs⟩
  unfold SimplePhysicsEngine.resolveCollision
  rw [hpb]
  cases hpa : a.physics with
  | none => rfl
  | some pa =>
    by_cases hv : 0 < (Vector2D.mk (pb.velocity.x - pa.velocity.x)
        (pb.velocity.y - pa.velocity.y)).dot ev.normal
    · simp [hpbs, hv]
    · simp [hpbs, hv]

/-- One pair interaction fixes static bodies on both sides. -/
theorem SimplePhysicsEngine.collidePair_static (a b : GameObject) :
    StaticUnchanged a (SimplePhysicsEngine.collidePair a b).1 ∧
    StaticUnchanged b (SimplePhysicsEngine.collidePair a b).2 := by
  unfold SimplePhysicsEngine.collidePair
  by_cases hc : a.active = true ∧ b.active = true ∧ a.physics.isSome ∧
      b.physics.isSome
  · rw [if_pos hc]
    cases hev : CollisionDetector.checkAABBCollision a b with
    | none => exact ⟨StaticUnchanged_refl a, StaticUnchanged_refl b⟩
    | some ev =>
      exact ⟨fun hs => SimplePhysicsEngine.resolveCollision_static_fst a b ev hs,
             fun hs => SimplePhysicsEngine.resolveCollision_static_snd a b ev hs⟩
  · rw [if_neg hc]
    exact ⟨StaticUnchanged_refl a, StaticUnchanged_refl b⟩

/-- The inner collision loop fixes every static body. -/
theorem SimplePhysicsEngine.interactOne_static :
    ∀ (l : List GameObject) (a : GameObject),
      StaticUnchanged a (SimplePhysicsEngine.interactOne a l).1 ∧
      List.Forall₂ StaticUnchanged l (SimplePhysicsEngine.interactOne a l).2 := by
  intro l
  induction l with
  | nil => intro a; exact ⟨StaticUnchanged_refl a, List.Forall₂.nil⟩
  | cons b bs ih =>
    intro a
    simp only [SimplePhysicsEngine.interactOne]
    have hpair := SimplePhysicsEngine.collidePair_static a b
    have hrec := ih (SimplePhysicsEngine.collidePair a b).1
    exact ⟨StaticUnchanged_trans hpair.1 hrec.1,
           List.Forall₂.cons hpair.2 hrec.2⟩

/-- The full collision pass fixes every static body. -/
theorem SimplePhysicsEngine.handleCollisions_static :
    ∀ (n : ℕ) (l : List GameObject), l.length = n →
      List.Forall₂ StaticUnchanged l (SimplePhysicsEngine.handleCollisions l) := by
  intro n
  induction n using Nat.strong_induction_on with
  | _ n ih =>
    intro l hl
    match l with
    | [] =>
      simp only [SimplePhysicsEngine.handleCollisions]
      exact List.Forall₂.nil
    | a :: rest =>
      simp only [SimplePhysicsEngine.handleCollisions]
      have hio := SimplePhysicsEngine.interactOne_static rest a
      have hlen := SimplePhysicsEngine.interactOne_length rest a
      have hrec := ih rest.length (by simp at hl; omega)
        (SimplePhysicsEngine.interactOne a rest).2 hlen
      exact List.Forall₂.cons hio.1 (Forall₂_staticUnchanged_comp hio.2 hrec)

/-- One full engine update fixes every static body. -/
theorem SimplePhysicsEngine.update_static (g : Vector2D) (dt : ℚ)
    (l : List GameObject) :
    List.Forall₂ StaticUnchanged l (SimplePhysicsEngine.update g dt l) := by
  unfold SimplePhysicsEngine.update
  refine Forall₂_staticUnchanged_comp
    (Forall₂_staticUnchanged_map _ (SimplePhysicsEngine.applyGravityObj_static g dt) l)
    (Forall₂_staticUnchanged_comp
      (Forall₂_staticUnchanged_map _ (SimplePhysicsEngine.integrateIfDynamic_static dt) _)
      (SimplePhysicsEngine.handleCollisions_static _ _ rfl))

/-- Any interleaving of engine steps and external force/impulse applications
fixes every static body. -/
theorem runActions_static (g : Vector2D) :
    ∀ (acts : List EngineAction) (l : List GameObject),
      List.Forall₂ StaticUnchanged l (runActions g acts l) := by
  intro acts
  induction acts with
  | nil => intro l; exact Forall₂_staticUnchanged_refl l
  | cons act rest ih =>
    intro l
    cases act with
    | step dt =>
      exact Forall₂_staticUnchanged_comp
        (SimplePhysicsEngine.update_static g dt l) (ih _)
    | force i f =>
      exact Forall₂_staticUnchanged_comp
        (Forall₂_staticUnchanged_modifyAt _
          (fun o hs => (GameObject.static_fixed_by_pushes o f hs).1) l i) (ih _)
    | impulse i f =>
      exact Forall₂_staticUnchanged_comp
        (Forall₂_staticUnchanged_modifyAt _
          (fun o hs => (GameObject.static_fixed_by_pushes o f hs).2) l i) (ih _)

/-- Index-wise reading of a `Forall₂` chain. -/
theorem Forall₂_getElem (R : GameObject → GameObject → Prop) :
    ∀ {l1 l2 : List GameObject}, List.Forall₂ R l1 l2 →
      ∀ (i : ℕ) (o : GameObject), l1[i]? = some o →
        ∃ o', l2[i]? = some o' ∧ R o o' := by
  intro l1 l2 h
  induction h with
  | nil =>
    intro i o ho
    simp at ho
  | cons hxy htail ih =>
    intro i o ho
    match i with
    | 0 =>
      rw [List.getElem?_cons_zero] at ho
      cases ho
      exact ⟨_, List.getElem?_cons_zero, hxy⟩
    | j + 1 =>
      rw [List.getElem?_cons_succ] at ho
      obtain ⟨o', h1, h2⟩ := ih j o ho
      exact ⟨o', by rw [List.getElem?_cons_succ]; exact h1, h2⟩

/-- Claim C6: a body constructed with `isStatic = true` keeps its position
and its entire physics state (in particular its velocity) across every
sequence of engine updates, gravity applications and externally applied
forces/impulses: static bodies are never integrated, never moved by
collision separation, and never receive impulses. -/
theorem claim6_static_invariant (gravity : Vector2D) (acts : List EngineAction)
    (l : List GameObject) (i : ℕ) (o : GameObject)
    (ho : l[i]? = some o) (hs : o.isStaticBody = true) :
    ∃ o', (runActions gravity acts l)[i]? = some o' ∧
      o'.position = o.position ∧ o'.physics = o.physics := by
  obtain ⟨o', h1, h2⟩ := Forall₂_getElem StaticUnchanged
    (runActions_static gravity acts l) i o ho
  have he := h2 hs
  exact ⟨o', h1, by rw [he], by rw [he]⟩

/-- Static 10×10 box used in the C6 witness. -/
def staticWitObj : GameObject := mkObj 0 ⟨0, 0⟩ ⟨10, 10⟩ (mkBody 1 ⟨0, 0⟩ true)

/-- Dynamic overlapping 10×10 box used in the C6 witness. -/
def dynWitObj : GameObject := mkObj 1 ⟨0, 3⟩ ⟨10, 10⟩ (mkBody 1 ⟨0, 0⟩ false)

/-- Witness for C6: a static box, overlapped by a dynamic box, across one
gravity-loaded engine step followed by an external force and an external
impulse aimed at it, keeps its position and physics state. -/
theorem claim6_witness :
    ∃ o', (runActions ⟨0, 981⟩
        [EngineAction.step (1 / 60), EngineAction.force 0 ⟨5, 5⟩,
         EngineAction.impulse 0 ⟨1, 1⟩]
        [staticWitObj, dynWitObj])[0]? = some o' ∧
      o'.position = staticWitObj.position ∧
      o'.physics = staticWitObj.physics :=
  claim6_static_invariant ⟨0, 981⟩
    [EngineAction.step (1 / 60), EngineAction.force 0 ⟨5, 5⟩,
     EngineAction.impulse 0 ⟨1, 1⟩]
    [staticWitObj, dynWitObj] 0 staticWitObj rfl rfl
